import Mathlib

/-!
Verification of the QOTD backend submission-evaluation engine
(`src/main.py`) against its design specification.

The Python source is shallowly embedded: pure logic becomes Lean
functions, the mutable JSON-backed store becomes explicit state passing
on a `Store` value, wall-clock measurements become explicit rational
parameters, and the sandboxed subprocess invocation is abstracted as a
per-test-case outcome oracle `run : Nat → RunOutcome` (the subprocess
result for test case `i` is `run i`).  Floating-point times are modelled
as exact rationals.
-/

namespace QOTD

/-! ## Basic string normalization (Python `str.strip`) -/

/-- ASCII whitespace characters removed by Python `str.strip()`
(space, tab, newline, carriage return, vertical tab, form feed). -/
def isPyWhitespace (c : Char) : Bool :=
  c = ' ' || c = '\t' || c = '\n' || c = '\r' || c = '\x0b' || c = '\x0c'

/-- Strip leading and trailing whitespace from a character list. -/
def pyStripList (l : List Char) : List Char :=
  ((l.dropWhile isPyWhitespace).reverse.dropWhile isPyWhitespace).reverse

/-- Python `s.strip()`. -/
def pyStrip (s : String) : String :=
  String.mk (pyStripList s.data)

/-! ## Data model (the pydantic models of `src/main.py`) -/

/-- `class TestCase`: optional input, required expected output. -/
structure TestCase where
  input : Option String
  expected_output : String
deriving DecidableEq, Repr

/-- `class Question` (immutable, owned by the repository). -/
structure Question where
  id : String
  title : String
  difficulty : String
  statement : String
  sample_input : Option String
  sample_output : Option String
  test_cases : List TestCase
  hints : List String
  expected_solution : Option String
deriving DecidableEq, Repr

/-- `class TestResult`: one per test case of the question. -/
structure TestResult where
  input : Option String
  expected_output : String
  actual_output : Option String
  passed : Bool
  error : Option String
deriving DecidableEq, Repr

/-- `class SubmissionResponse`: the verdict for one submission. -/
structure SubmissionResponse where
  correct : Bool
  passed_count : Nat
  total : Nat
  results : List TestResult
  time_ms : ℚ
  message : Option String
deriving DecidableEq, Repr

/-- `class SubmissionRequest`. -/
structure SubmissionRequest where
  user : String
  q_id : String
  language : String
  answer : String
deriving DecidableEq, Repr

/-! ## OutputComparator -/

/-- `_compare_outputs(expected, actual)`:
`expected.strip() == (actual or "").strip()`.  An absent actual
behaves as the empty string, mirroring `actual or ""`. -/
def _compare_outputs (expected : String) (actual : Option String) : Bool :=
  pyStrip expected == pyStrip (actual.getD "")

/-! ## Python exceptions raised inside the evaluators

Both evaluators receive `Question` pydantic models (built by
`Question(**q)` in `get_question` and `Question(**q.dict())` in
`submit`), so each element of `q.test_cases` is a pydantic `TestCase`
model instance, not a dict.  The evaluator loops nevertheless access
the test cases dict-style, which raises. -/

/-- The Python exceptions reachable inside the evaluator loops:
`TypeError` from subscripting a model, `AttributeError` from calling a
missing method, `subprocess.TimeoutExpired`, and any other host-side
failure (caught by the bare `except Exception`). -/
inductive PyExc where
  | typeError (msg : String)
  | attributeError (msg : String)
  | timeoutExpired
  | other (msg : String)
deriving DecidableEq, Repr

/-- Subscript access `tc[key]` on a pydantic `TestCase` instance:
`BaseModel` implements no `__getitem__`, so it raises
`TypeError: TestCase object is not subscriptable`, whatever the key. -/
def TestCase.subscript (_tc : TestCase) (_key : String) :
    Except PyExc String :=
  .error (.typeError "TestCase object is not subscriptable")

/-- Method call `tc.get(key)` on a pydantic `TestCase` instance:
`BaseModel` defines no attribute `get`, so it raises
`AttributeError: TestCase object has no attribute get`. -/
def TestCase.callGet (_tc : TestCase) (_key : String) :
    Except PyExc (Option String) :=
  .error (.attributeError "TestCase object has no attribute get")

/-- Python `str(e)` for the exceptions above, as used by the
`except Exception as e` handler. -/
def excMessage : PyExc → String
  | .typeError m => m
  | .attributeError m => m
  | .timeoutExpired => "timed out"
  | .other m => m

/-! ## Evaluator, literal-output mode -/

/-- One loop iteration of `evaluate_output_submission`
(main.py:179-182): `ok = _compare_outputs(tc["expected_output"],
answer)` — the subscript raises `TypeError` on the pydantic model —
then the row is built with `tc.get("input")` and
`tc["expected_output"]` again.  Returns the row and whether the
`passed` counter is bumped. -/
def outputLoopIter (answer : String) (tc : TestCase) :
    Except PyExc (TestResult × Bool) := do
  let expected ← tc.subscript "expected_output"
  let ok := _compare_outputs expected (some answer)
  let inp ← tc.callGet "input"
  let expected2 ← tc.subscript "expected_output"
  pure ({ input := inp
          expected_output := expected2
          actual_output := some answer
          passed := ok
          error := none }, ok)

/-- The loop of `evaluate_output_submission`: the accumulated rows and
the `passed` counter, or the first uncaught exception. -/
def outputLoop (answer : String) :
    List TestCase → Except PyExc (List TestResult × Nat)
  | [] => pure ([], 0)
  | tc :: rest => do
    let (r, counted) ← outputLoopIter answer tc
    let (rs, p) ← outputLoop answer rest
    pure (r :: rs, (if counted then 1 else 0) + p)

/-- `evaluate_output_submission(q, answer)`.  The wall-clock elapsed
time `(end - start) * 1000` is abstracted as the parameter
`elapsed_ms`.  An exception raised in the loop propagates out of the
function (the caller sees an HTTP 500), producing no response. -/
def evaluate_output_submission (q : Question) (answer : String)
    (elapsed_ms : ℚ) : Except PyExc SubmissionResponse := do
  let (results, passed) ← outputLoop answer q.test_cases
  pure { correct := passed == q.test_cases.length
         passed_count := passed
         total := q.test_cases.length
         results := results
         time_ms := elapsed_ms
         message := none }

/-! ## SandboxedRunner outcomes and Evaluator, source-code mode -/

/-- Outcome of one `subprocess.run` invocation for one test case:
normal completion with captured stdout/stderr, `subprocess.TimeoutExpired`,
or any other host-side exception (caught by `except Exception`). -/
inductive RunOutcome where
  | success (stdout stderr : String)
  | timedOut
  | exn (msg : String)
deriving DecidableEq, Repr

/-- The error sentinel prefix printed by the wrapper when candidate
code raises. -/
def ERROR_SENTINEL : String := "__ERROR__:"

/-- The `try` block of one loop iteration of
`evaluate_python_submission` (main.py:217-228): the subprocess
arguments are built first — `tc.get("input")` raises `AttributeError`
on the pydantic model before the subprocess is spawned.  The
subprocess outcome (completion with captured stdout/stderr,
`TimeoutExpired`, or another host-side failure) is abstracted as `oc`.
Had the argument succeeded, a sentinel-prefixed output would be stored
as a non-passing row with the full output in `error`, and any other
output would be compared, with stderr kept in `error` when non-empty. -/
def pythonTryBody (tc : TestCase) (oc : RunOutcome) :
    Except PyExc (TestResult × Bool) := do
  let _inp ← tc.callGet "input"
  let (out, err) ←
    match oc with
    | .success out err => pure (out, err)
    | .timedOut => (throw .timeoutExpired : Except PyExc (String × String))
    | .exn msg => throw (.other msg)
  if out.startsWith ERROR_SENTINEL then do
    let inp2 ← tc.callGet "input"
    let expected ← tc.subscript "expected_output"
    pure ({ input := inp2
            expected_output := expected
            actual_output := none
            passed := false
            error := some out }, false)
  else do
    let expected ← tc.subscript "expected_output"
    let ok := _compare_outputs expected (some out)
    let inp2 ← tc.callGet "input"
    let expected2 ← tc.subscript "expected_output"
    pure ({ input := inp2
            expected_output := expected2
            actual_output := some out
            passed := ok
            error := if err = "" then none else some err }, ok)

/-- One loop iteration of `evaluate_python_submission`
(main.py:216-233): the `try` block and its two handlers.  Both
handlers rebuild the row with `tc.get("input")` and
`tc["expected_output"]` (main.py:230 and main.py:232), which raise
again on the pydantic model, so the handler's exception propagates out
of the loop uncaught. -/
def pythonLoopIter (tc : TestCase) (oc : RunOutcome) :
    Except PyExc (TestResult × Bool) :=
  match pythonTryBody tc oc with
  | .ok r => .ok r
  | .error .timeoutExpired => do
    let inp ← tc.callGet "input"
    let expected ← tc.subscript "expected_output"
    pure ({ input := inp
            expected_output := expected
            actual_output := none
            passed := false
            error := some "timeout" }, false)
  | .error e => do
    let inp ← tc.callGet "input"
    let expected ← tc.subscript "expected_output"
    pure ({ input := inp
            expected_output := expected
            actual_output := none
            passed := false
            error := some (excMessage e) }, false)

/-- The loop of `evaluate_python_submission`, starting from test-case
index `i`: the accumulated rows and the `passed` counter, or the first
uncaught exception. -/
def pythonLoop (run : Nat → RunOutcome) :
    Nat → List TestCase → Except PyExc (List TestResult × Nat)
  | _, [] => pure ([], 0)
  | i, tc :: rest => do
    let (r, counted) ← pythonLoopIter tc (run i)
    let (rs, p) ← pythonLoop run (i + 1) rest
    pure (r :: rs, (if counted then 1 else 0) + p)

/-- `evaluate_python_submission(q, source)`.  The outcome of the
sandboxed subprocess for test case `i` is abstracted as `run i`; the
measured elapsed time as `elapsed_ms`.  An exception raised in the
loop propagates out of the function, producing no response. -/
def evaluate_python_submission (q : Question) (run : Nat → RunOutcome)
    (elapsed_ms : ℚ) : Except PyExc SubmissionResponse := do
  let (results, passed) ← pythonLoop run 0 q.test_cases
  pure { correct := passed == q.test_cases.length
         passed_count := passed
         total := q.test_cases.length
         results := results
         time_ms := elapsed_ms
         message := none }

/-! ## Source transport into the sandbox (the `full` assembly) -/

/-- A single-quote character (ASCII 39). -/
def sq : Char := Char.ofNat 39

/-- A Python triple-quote delimiter. -/
def tripleQuote : String := String.mk [sq, sq, sq]

/-- The assembly `full = f"source_code = \x27\x27\x27{source}\x27\x27\x27\n" + wrapper`:
the candidate source is interpolated between triple-quote delimiters and
the wrapper text follows. -/
def assembleFull (source wrapper : String) : String :=
  "source_code = " ++ tripleQuote ++ source ++ tripleQuote ++ "\n" ++ wrapper

/-- Split a character list at the first occurrence of a triple quote:
returns the characters before it and the characters after it. -/
def splitAtTripleQuote : List Char → Option (List Char × List Char)
  | [] => none
  | c :: cs =>
    if (c :: cs).take 3 = [sq, sq, sq] then
      some ([], cs.drop 2)
    else
      match splitAtTripleQuote cs with
      | some (pre, post) => some (c :: pre, post)
      | none => none

/-- The source string that the Python parser binds to `source_code` when
it reads the assembled program: the content of the first triple-quoted
literal, i.e. everything between the first triple quote and the next
one.  This is the recovery half of the transport round-trip. -/
def boundSource (full : String) : Option String :=
  match splitAtTripleQuote full.data with
  | none => none
  | some (_, afterOpen) =>
    match splitAtTripleQuote afterOpen with
    | none => none
    | some (content, _) => some (String.mk content)

/-! ## DataStore: stats map and leaderboard -/

/-- One value of the `stats` dict: attempts, successes, cumulative time. -/
structure StatsRec where
  attempts : Nat
  successes : Nat
  total_time_ms : ℚ
deriving DecidableEq, Repr

/-- The zeroed record `{"attempts": 0, "successes": 0, "total_time_ms": 0.0}`
installed by `setdefault` on first reference. -/
def zeroStats : StatsRec := ⟨0, 0, 0⟩

/-- `class LeaderboardEntry`. -/
structure LeaderboardEntry where
  user : String
  q_id : String
  correct : Bool
  time_ms : ℚ
deriving DecidableEq, Repr

/-- The mutable contents of `store.json`: the per-question stats dict
and the shared leaderboard list. -/
structure Store where
  stats : List (String × StatsRec)
  leaderboard : List LeaderboardEntry
deriving DecidableEq, Repr

/-- Dict write `stats[q_id] = v`: replace the binding if the key is
present, append it otherwise. -/
def setStats : List (String × StatsRec) → String → StatsRec → List (String × StatsRec)
  | [], k, v => [(k, v)]
  | (k0, v0) :: rest, k, v =>
    if k0 = k then (k, v) :: rest else (k0, v0) :: setStats rest k v

/-- Dict read with the `setdefault` default: the stats record of a
question id, zeroed when absent. -/
def lookupStats (st : Store) (q_id : String) : StatsRec :=
  (st.stats.lookup q_id).getD zeroStats

/-- The Python leaderboard sort key `(not x["correct"], x["time_ms"])`,
with `False < True` modelled as `0 < 1`. -/
def lbKey (e : LeaderboardEntry) : Nat × ℚ :=
  (if e.correct then 0 else 1, e.time_ms)

/-- Lexicographic comparison of leaderboard sort keys, as Python
`sorted` compares the key tuples. -/
def lbLE (a b : LeaderboardEntry) : Bool :=
  decide ((lbKey a).1 < (lbKey b).1) ||
    ((lbKey a).1 == (lbKey b).1 && decide ((lbKey a).2 ≤ (lbKey b).2))

/-- `DataStore.update_stats(q_id, user, correct, time_ms)`: bump the
(lazily created) stats record, append a leaderboard entry, re-sort the
whole leaderboard by `lbLE` and keep the top 100. -/
def update_stats (st : Store) (q_id user : String) (correct : Bool)
    (time_ms : ℚ) : Store :=
  let s := lookupStats st q_id
  let s2 : StatsRec :=
    { attempts := s.attempts + 1
      successes := s.successes + (if correct then 1 else 0)
      total_time_ms := s.total_time_ms + time_ms }
  { stats := setStats st.stats q_id s2
    leaderboard :=
      ((st.leaderboard ++
          [({ user := user, q_id := q_id, correct := correct,
              time_ms := time_ms } : LeaderboardEntry)]).mergeSort lbLE).take 100 }

/-- The `Stats` response model. -/
structure Stats where
  attempts : Nat
  successes : Nat
  average_time_ms : ℚ
deriving DecidableEq, Repr

/-- `DataStore.get_stats(q_id)`: a read-only snapshot; the average is
computed on read, guarded against division by zero. -/
def get_stats (st : Store) (q_id : String) : Stats :=
  let s := lookupStats st q_id
  { attempts := s.attempts
    successes := s.successes
    average_time_ms :=
      if s.attempts ≠ 0 then s.total_time_ms / (s.attempts : ℚ) else 0 }

/-! ## The submit route -/

/-- The failure outcomes of the `submit` route: 404 for an unknown
question id, 400 for an unsupported submission language, and an
uncaught Python exception escaping an evaluator (surfaced by FastAPI
as a 500). -/
inductive SubmitError where
  | notFound
  | invalidRequest
  | pyExc (e : PyExc)
deriving DecidableEq, Repr

/-- `POST /api/qotd/submit`: look the question up, dispatch on the
`language` string, and on success fold the verdict into the store via
`update_stats`.  Returns the response (or error) together with the
store state after the call: an exception escaping an evaluator
propagates before the `update_stats` line runs, leaving the store
untouched. -/
def submit (questions : List (String × Question)) (st : Store)
    (sub : SubmissionRequest) (run : Nat → RunOutcome)
    (elapsedOut elapsedPy : ℚ) :
    Except SubmitError SubmissionResponse × Store :=
  match questions.lookup sub.q_id with
  | none => (.error .notFound, st)
  | some q =>
    if sub.language = "output" then
      match evaluate_output_submission q sub.answer elapsedOut with
      | .error e => (.error (.pyExc e), st)
      | .ok res =>
        (.ok { res with message := some "Submission evaluated" },
         update_stats st sub.q_id sub.user res.correct res.time_ms)
    else if sub.language = "python" then
      match evaluate_python_submission q run elapsedPy with
      | .error e => (.error (.pyExc e), st)
      | .ok res =>
        (.ok { res with message := some "Submission evaluated" },
         update_stats st sub.q_id sub.user res.correct res.time_ms)
    else
      (.error .invalidRequest, st)

/-- A subprocess-outcome oracle where every test case would report a
sentinel-prefixed crash output. -/
def runAllSentinel : Nat → RunOutcome :=
  fun _ => .success "__ERROR__:boom" ""

/-- A subprocess-outcome oracle where every test case would time out. -/
def runAllTimeout : Nat → RunOutcome :=
  fun _ => .timedOut

/-! ## Concrete sample data (question `q1` of `questions.json`) -/

/-- The sample question `q1` ("Sum of Two Numbers") shipped with the
datastore. -/
def q1 : Question :=
  { id := "q1"
    title := "Sum of Two Numbers"
    difficulty := "Easy"
    statement := "Given two integers separated by space, output their sum."
    sample_input := some "2 3"
    sample_output := some "5"
    test_cases :=
      [ { input := some "2 3", expected_output := "5" },
        { input := some "10 5", expected_output := "15" } ]
    hints :=
      [ "Split the input by space and convert to integers", "Return a+b" ]
    expected_solution := none }

/-- The wrapper program text of `evaluate_python_submission`, verbatim
(quote characters and braces written with hex escapes). -/
def wrapperText : String :=
  "import sys\ndef _run():\n    import sys\n    data = sys.stdin.read()\n    try:\n        # the user code can define solve(input_str) to return answer string\n        globals_dict = \x7b\x7d\n        locals_dict = \x7b\x7d\n        exec(source_code, globals_dict, locals_dict)\n        if \x27solve\x27 in locals_dict:\n            out = locals_dict[\x27solve\x27](data.strip())\n        elif \x27solve\x27 in globals_dict:\n            out = globals_dict[\x27solve\x27](data.strip())\n        else:\n            out = \x27\x27\n        print(out, end=\x27\x27)\n    except Exception as e:\n        print(\x27__ERROR__:\x27 + str(e), end=\x27\x27)\nif __name__ == \x27__main__\x27:\n    _run()\n"

/-- A candidate source containing a triple-quote sequence:
the five characters `a` `\x27` `\x27` `\x27` `b`. -/
def injSource : String := "a" ++ tripleQuote ++ "b"

/-! ## Claim theorems -/

/-- Claim C1 is violated by the code: for any question with a nonempty
test-case list, neither evaluator returns a Verdict at all.  The
literal-output loop subscripts the pydantic `TestCase` and raises
`TypeError` on the first test case; the source-code loop raises
`AttributeError` from `tc.get("input")` while building the subprocess
arguments, and its `except Exception` handler re-raises the same error
while rebuilding the row, for every outcome-oracle assignment.  The
sample question `q1` (two test cases) is a concrete failing input. -/
theorem C1_no_verdict_on_nonempty :
    (∀ (tc : TestCase) (rest : List TestCase) (answer : String) (t : ℚ),
      evaluate_output_submission { q1 with test_cases := tc :: rest } answer t
        = .error (.typeError "TestCase object is not subscriptable"))
    ∧ (∀ (tc : TestCase) (rest : List TestCase) (run : Nat → RunOutcome)
        (t : ℚ),
      evaluate_python_submission { q1 with test_cases := tc :: rest } run t
        = .error (.attributeError "TestCase object has no attribute get"))
    ∧ (∀ (answer : String) (t : ℚ),
      evaluate_output_submission q1 answer t
        = .error (.typeError "TestCase object is not subscriptable"))
    ∧ (∀ (run : Nat → RunOutcome) (t : ℚ),
      evaluate_python_submission q1 run t
        = .error (.attributeError "TestCase object has no attribute get")) :=
  ⟨fun _ _ _ _ => rfl, fun _ _ _ _ => rfl, fun _ _ => rfl, fun _ _ => rfl⟩

/-- Claim C3: `_compare_outputs` decides equality after stripping
leading and trailing whitespace from both sides, with no other
normalization; an absent actual output behaves as the empty string; it
is a total pure function.  The three concrete examples of the spec
hold. -/
theorem C3_compare_trim_only :
    (∀ e a, _compare_outputs e (some a) = (pyStrip e == pyStrip a))
    ∧ (∀ e, _compare_outputs e none = (pyStrip e == pyStrip ""))
    ∧ _compare_outputs "5" (some "5\n") = true
    ∧ _compare_outputs "5" (some " 5 ") = true
    ∧ _compare_outputs "5" (some "05") = false :=
  ⟨fun _ _ => rfl, fun _ => rfl, by decide, by decide, by decide⟩

/-- Claim C4 is violated by the code: the literal-output scenario it
describes never happens.  On the sample question with expected outputs
"5" and "15" and answer "5", the evaluator raises `TypeError` from
`tc["expected_output"]` on the first test case instead of producing
`passed_count = 1`, `correct = false` — no response is ever returned. -/
theorem C4_sample_literal_run_crashes :
    (∀ t : ℚ,
      evaluate_output_submission q1 "5" t
        = .error (.typeError "TestCase object is not subscriptable"))
    ∧ ∀ (t : ℚ) (resp : SubmissionResponse),
        evaluate_output_submission q1 "5" t ≠ .ok resp := by
  refine ⟨fun _ => rfl, ?_⟩
  intro t resp h
  exact Except.noConfusion h

/-- Claim C10 is violated by the code: in literal-output mode no
TestResult row (with `error` absent and `actual_output` equal to the
payload, or otherwise) is ever emitted for a nonempty test-case list —
the evaluator raises `TypeError` on the first test case, for every
payload. -/
theorem C10_no_literal_rows :
    (∀ (answer : String) (t : ℚ),
      evaluate_output_submission q1 answer t
        = .error (.typeError "TestCase object is not subscriptable"))
    ∧ ∀ (answer : String) (t : ℚ) (resp : SubmissionResponse),
        evaluate_output_submission q1 answer t ≠ .ok resp := by
  refine ⟨fun _ _ => rfl, ?_⟩
  intro answer t resp h
  exact Except.noConfusion h

/-- Claim C2 is violated by the code: the source is interpolated into a
triple-quoted string literal of the wrapper program, so the transport is
not opaque — for the five-character source `a\x27\x27\x27b`, the source
the assembled program binds is just `a` (the embedded triple quote
terminates the literal early), and the round-trip fails. -/
theorem C2_transport_roundtrip_fails :
    boundSource (assembleFull injSource wrapperText) = some "a"
    ∧ injSource ≠ "a"
    ∧ ∃ s : String, boundSource (assembleFull s wrapperText) ≠ some s :=
  ⟨by decide, by decide, injSource, by decide⟩

/-- Claim C5 is violated by the code: in source-code mode no candidate
output is ever captured or inspected.  `tc.get("input")` raises
`AttributeError` while the subprocess arguments are built, before the
subprocess is spawned, and the `except Exception` handler re-raises it,
so the sentinel and stderr handling the claim describes is unreachable:
for every outcome oracle — in particular one whose every output is
sentinel-prefixed — evaluation of `q1` raises instead of emitting any
TestResult. -/
theorem C5_sentinel_handling_unreachable :
    (∀ (run : Nat → RunOutcome) (t : ℚ),
      evaluate_python_submission q1 run t
        = .error (.attributeError "TestCase object has no attribute get"))
    ∧ ∀ (t : ℚ) (resp : SubmissionResponse),
        evaluate_python_submission q1 runAllSentinel t ≠ .ok resp := by
  refine ⟨fun _ _ => rfl, ?_⟩
  intro t resp h
  exact Except.noConfusion h

/-- Claim C6 is violated by the code: the timeout branch is
unreachable.  Even when every subprocess outcome would be a timeout,
evaluation of `q1` raises `AttributeError` on the first test case
before any subprocess runs — no TestResult with `error = "timeout"` is
emitted and no remaining test case executes, instead of the claimed
one-failing-row-and-continue behavior. -/
theorem C6_timeout_branch_unreachable :
    (∀ t : ℚ,
      evaluate_python_submission q1 runAllTimeout t
        = .error (.attributeError "TestCase object has no attribute get"))
    ∧ ∀ (t : ℚ) (resp : SubmissionResponse),
        evaluate_python_submission q1 runAllTimeout t ≠ .ok resp := by
  refine ⟨fun _ => rfl, ?_⟩
  intro t resp h
  exact Except.noConfusion h

theorem lookup_setStats_self (m : List (String × StatsRec)) (k : String)
    (v : StatsRec) : (setStats m k v).lookup k = some v := by
  induction m with
  | nil => simp [setStats, List.lookup]
  | cons p rest ih =>
    obtain ⟨k0, v0⟩ := p
    by_cases h : k0 = k
    · simp [setStats, h, List.lookup]
    · have hne : (k == k0) = false := beq_eq_false_iff_ne.mpr (Ne.symm h)
      simp [setStats, h, List.lookup, hne, ih]

theorem lbLE_trans (a b c : LeaderboardEntry) :
    lbLE a b = true → lbLE b c = true → lbLE a c = true := by
  simp only [lbLE, Bool.or_eq_true, decide_eq_true_eq, Bool.and_eq_true,
    beq_iff_eq]
  rintro (h | ⟨h1, h2⟩) (h' | ⟨h1', h2'⟩)
  · exact Or.inl (h.trans h')
  · exact Or.inl (h1' ▸ h)
  · exact Or.inl (h1 ▸ h')
  · exact Or.inr ⟨h1.trans h1', h2.trans h2'⟩

theorem lbLE_total (a b : LeaderboardEntry) :
    (lbLE a b || lbLE b a) = true := by
  simp only [lbLE, Bool.or_eq_true, decide_eq_true_eq, Bool.and_eq_true,
    beq_iff_eq]
  rcases Nat.lt_trichotomy (lbKey a).1 (lbKey b).1 with h | h | h
  · exact Or.inl (Or.inl h)
  · rcases le_total (lbKey a).2 (lbKey b).2 with h2 | h2
    · exact Or.inl (Or.inr ⟨h, h2⟩)
    · exact Or.inr (Or.inr ⟨h.symm, h2⟩)
  · exact Or.inr (Or.inl h)

/-- Claim C7: each `update_stats` call bumps the question's stats record
by exactly one attempt, one success exactly when the verdict is correct,
and the verdict's elapsed time; the record reads as zeroed before its
first reference; the average read by `get_stats` is cumulative time
over attempts, and zero when there are no attempts (no division by zero
occurs).  Holding for every store state, this covers every sequence of
record calls. -/
theorem C7_stats_fold (st : Store) (qid user : String) (c : Bool) (t : ℚ) :
    lookupStats (update_stats st qid user c t) qid
      = { attempts := (lookupStats st qid).attempts + 1,
          successes := (lookupStats st qid).successes + (if c then 1 else 0),
          total_time_ms := (lookupStats st qid).total_time_ms + t }
    ∧ (st.stats.lookup qid = none → lookupStats st qid = zeroStats)
    ∧ (get_stats st qid).attempts = (lookupStats st qid).attempts
    ∧ (get_stats st qid).successes = (lookupStats st qid).successes
    ∧ (get_stats st qid).average_time_ms
        = (if (lookupStats st qid).attempts = 0 then 0
           else (lookupStats st qid).total_time_ms
                  / ((lookupStats st qid).attempts : ℚ)) := by
  refine ⟨?_, ?_, rfl, rfl, ?_⟩
  · show (List.lookup qid (setStats st.stats qid _)).getD zeroStats = _
    rw [lookup_setStats_self]
    rfl
  · intro h
    simp [lookupStats, h]
  · unfold get_stats
    by_cases h : (lookupStats st qid).attempts = 0
    · simp [h]
    · simp [h]

/-- Witness for C7: one recorded correct submission on a fresh store. -/
theorem C7_stats_fold_witness :
    lookupStats (update_stats ⟨[], []⟩ "q1" "u" true 10) "q1"
      = { attempts := 1, successes := 1, total_time_ms := 10 } := by
  rw [(C7_stats_fold ⟨[], []⟩ "q1" "u" true 10).1]
  norm_num [lookupStats, zeroStats, List.lookup]

/-- Claim C8: after any `update_stats` call on any store, the
leaderboard is the appended-then-sorted-then-truncated list: it holds
at most 100 entries and is sorted by the key (not-correct ascending,
time ascending), so correct entries precede incorrect ones and each
group is ordered by ascending time. -/
theorem C8_leaderboard_invariant (st : Store) (qid user : String)
    (c : Bool) (t : ℚ) :
    (update_stats st qid user c t).leaderboard.length ≤ 100
    ∧ List.Sorted (fun a b => lbLE a b = true)
        (update_stats st qid user c t).leaderboard
    ∧ (update_stats st qid user c t).leaderboard
        = ((st.leaderboard ++
              ([{ user := user, q_id := qid, correct := c,
                  time_ms := t }] : List LeaderboardEntry)).mergeSort
            lbLE).take 100 := by
  refine ⟨?_, ?_, rfl⟩
  · show (List.take 100 _).length ≤ 100
    rw [List.length_take]
    exact min_le_left _ _
  · show List.Pairwise _ (List.take 100 _)
    exact ((List.sorted_mergeSort lbLE_trans lbLE_total _).sublist
      (List.take_sublist _ _))

/-- Claim C9: for an existing question id and a submission whose
language is neither "output" nor "python", `submit` fails with the
InvalidRequest error and returns the store untouched — no evaluation
happens and no stats or leaderboard update is applied. -/
theorem C9_invalid_mode (questions : List (String × Question)) (st : Store)
    (sub : SubmissionRequest) (run : Nat → RunOutcome) (tO tP : ℚ)
    (q : Question)
    (hq : questions.lookup sub.q_id = some q)
    (h1 : sub.language ≠ "output") (h2 : sub.language ≠ "python") :
    submit questions st sub run tO tP = (.error .invalidRequest, st) := by
  unfold submit
  rw [hq]
  simp [h1, h2]

/-- Witness for C9: a "java" submission against the sample question. -/
theorem C9_invalid_mode_witness :
    ([("q1", q1)].lookup ("q1" : String) = some q1
      ∧ ("java" : String) ≠ "output" ∧ ("java" : String) ≠ "python")
    ∧ submit [("q1", q1)] ⟨[], []⟩ ⟨"u", "q1", "java", "x"⟩ runAllTimeout 0 0
        = (.error .invalidRequest, (⟨[], []⟩ : Store)) :=
  ⟨⟨by decide, by decide, by decide⟩,
    C9_invalid_mode [("q1", q1)] ⟨[], []⟩ ⟨"u", "q1", "java", "x"⟩
      runAllTimeout 0 0 q1 (by decide) (by decide) (by decide)⟩

end QOTD
